import Mathlib

/-!
Shallow embedding of the WH5 store inventory core (src/pages/Home.tsx,
`inventoryReducer`, `initialState` and the `InventoryProvider` save effect,
together with the type declarations in src/types).  Timestamps (`Date`) are
modelled as natural numbers of milliseconds; the reducer cases that call
`new Date()` take the current time `now` as an explicit parameter.
-/

namespace WH5

/-- Embedding of `InventoryItem` from src/types. -/
structure InventoryItem where
  id : String
  name : String
  description : String
  quantity : Int
  unit : String
  categoryId : String
  waybillNumber : String
  tags : List String
  createdAt : Nat
  updatedAt : Nat
  price : Option Int
  minStockLevel : Option Int
  deriving Repr, DecidableEq

/-- Embedding of `Category` from src/types. -/
structure Category where
  id : String
  name : String
  description : String
  color : String
  createdAt : Nat
  deriving Repr, DecidableEq

/-- Embedding of `ActivityLog` from src/types (an activity record). -/
structure ActivityLog where
  id : String
  type : String
  description : String
  itemId : Option String
  timestamp : Nat
  userId : Option String
  deriving Repr, DecidableEq

/-- Embedding of `User` from src/types. -/
structure User where
  id : String
  email : String
  name : String
  role : String
  createdAt : Nat
  lastLogin : Option Nat
  deriving Repr, DecidableEq

/-- Embedding of `Settings` from src/types. -/
structure Settings where
  theme : String
  colorScheme : String
  density : String
  adminPasscode : String
  geminiApiKey : String
  githubLink : String
  companyDomain : String
  autoLogout : Bool
  rememberSession : Bool
  lowStockAlerts : Bool
  activityNotifications : Bool
  deriving Repr, DecidableEq

/-- Embedding of `Partial<Settings>` (the UPDATE_SETTINGS payload). -/
structure SettingsPatch where
  theme : Option String := none
  colorScheme : Option String := none
  density : Option String := none
  adminPasscode : Option String := none
  geminiApiKey : Option String := none
  githubLink : Option String := none
  companyDomain : Option String := none
  autoLogout : Option Bool := none
  rememberSession : Option Bool := none
  lowStockAlerts : Option Bool := none
  activityNotifications : Option Bool := none
  deriving Repr, DecidableEq

/-- Embedding of `AuthState` from src/types. -/
structure AuthState where
  isAuthenticated : Bool
  user : Option User
  sessionExpiry : Option Nat
  deriving Repr, DecidableEq

/-- Embedding of `InventoryState` from src/types. -/
structure InventoryState where
  items : List InventoryItem
  categories : List Category
  activityLog : List ActivityLog
  settings : Settings
  auth : AuthState
  deriving Repr, DecidableEq

/-- Embedding of the `InventoryAction` union from src/types.  The TypeScript
reducer has a `default:` branch for any runtime action object whose `type`
string is not one of the fourteen recognized kinds; the constructor
`unknownAction` stands for such an action, carrying its kind string. -/
inductive InventoryAction where
  | addItem (payload : InventoryItem)
  | updateItem (payload : InventoryItem)
  | deleteItem (payload : String)
  | setItems (payload : List InventoryItem)
  | addCategory (payload : Category)
  | updateCategory (payload : Category)
  | deleteCategory (payload : String)
  | setCategories (payload : List Category)
  | addActivity (payload : ActivityLog)
  | setActivityLog (payload : List ActivityLog)
  | updateSettings (payload : SettingsPatch)
  | login (payload : User)
  | logout
  | refreshSession
  | unknownAction (kind : String)
  deriving Repr, DecidableEq

/-- The `type` tag string of an action, as carried by the TypeScript object. -/
def kindOf : InventoryAction → String
  | .addItem _ => "ADD_ITEM"
  | .updateItem _ => "UPDATE_ITEM"
  | .deleteItem _ => "DELETE_ITEM"
  | .setItems _ => "SET_ITEMS"
  | .addCategory _ => "ADD_CATEGORY"
  | .updateCategory _ => "UPDATE_CATEGORY"
  | .deleteCategory _ => "DELETE_CATEGORY"
  | .setCategories _ => "SET_CATEGORIES"
  | .addActivity _ => "ADD_ACTIVITY"
  | .setActivityLog _ => "SET_ACTIVITY_LOG"
  | .updateSettings _ => "UPDATE_SETTINGS"
  | .login _ => "LOGIN"
  | .logout => "LOGOUT"
  | .refreshSession => "REFRESH_SESSION"
  | .unknownAction k => k

/-- The fourteen action kinds handled by named cases of the reducer switch. -/
def knownKinds : List String :=
  ["ADD_ITEM", "UPDATE_ITEM", "DELETE_ITEM", "SET_ITEMS",
   "ADD_CATEGORY", "UPDATE_CATEGORY", "DELETE_CATEGORY", "SET_CATEGORIES",
   "ADD_ACTIVITY", "SET_ACTIVITY_LOG", "UPDATE_SETTINGS",
   "LOGIN", "LOGOUT", "REFRESH_SESSION"]

/-- `{...state.settings, ...action.payload}` from the UPDATE_SETTINGS case:
fields present in the partial payload win, the rest keep their value. -/
def mergeSettings (s : Settings) (p : SettingsPatch) : Settings :=
  { theme := p.theme.getD s.theme
    colorScheme := p.colorScheme.getD s.colorScheme
    density := p.density.getD s.density
    adminPasscode := p.adminPasscode.getD s.adminPasscode
    geminiApiKey := p.geminiApiKey.getD s.geminiApiKey
    githubLink := p.githubLink.getD s.githubLink
    companyDomain := p.companyDomain.getD s.companyDomain
    autoLogout := p.autoLogout.getD s.autoLogout
    rememberSession := p.rememberSession.getD s.rememberSession
    lowStockAlerts := p.lowStockAlerts.getD s.lowStockAlerts
    activityNotifications := p.activityNotifications.getD s.activityNotifications }

/-- `sessionExpiry.setHours(getHours() + 8)`: eight hours in milliseconds. -/
def eightHoursMs : Nat := 8 * 60 * 60 * 1000

/-- The logged-out auth value produced by the LOGOUT case (and used by the
save effect when `rememberSession` is false). -/
def loggedOutAuth : AuthState :=
  { isAuthenticated := false, user := none, sessionExpiry := none }

/-- Embedding of `inventoryReducer` from src/pages/Home.tsx.  `now` is the
millisecond timestamp that `new Date()` would return inside the LOGIN and
REFRESH_SESSION cases. -/
def inventoryReducer (now : Nat) (state : InventoryState)
    (action : InventoryAction) : InventoryState :=
  match action with
  | .addItem payload =>
      { state with items := state.items ++ [payload] }
  | .updateItem payload =>
      { state with items :=
          state.items.map (fun item =>
            if item.id = payload.id then payload else item) }
  | .deleteItem payload =>
      { state with items :=
          state.items.filter (fun item => item.id ≠ payload) }
  | .setItems payload =>
      { state with items := payload }
  | .addCategory payload =>
      { state with categories := state.categories ++ [payload] }
  | .updateCategory payload =>
      { state with categories :=
          state.categories.map (fun category =>
            if category.id = payload.id then payload else category) }
  | .deleteCategory payload =>
      { state with categories :=
          state.categories.filter (fun category => category.id ≠ payload) }
  | .setCategories payload =>
      { state with categories := payload }
  | .addActivity payload =>
      { state with activityLog := payload :: state.activityLog }
  | .setActivityLog payload =>
      { state with activityLog := payload }
  | .updateSettings payload =>
      { state with settings := mergeSettings state.settings payload }
  | .login payload =>
      { state with auth :=
          { isAuthenticated := true
            user := some payload
            sessionExpiry := some (now + eightHoursMs) } }
  | .logout =>
      { state with auth := loggedOutAuth }
  | .refreshSession =>
      if state.auth.isAuthenticated then
        { state with auth :=
            { state.auth with sessionExpiry := some (now + eightHoursMs) } }
      else
        state
  | .unknownAction _ => state

/-- Embedding of `initialState` from src/pages/Home.tsx; `t0` is the module
load time at which `new Date()` stamps the default category. -/
def initialState (t0 : Nat) : InventoryState :=
  { items := []
    categories :=
      [{ id := "default"
         name := "General"
         description := "Default category for uncategorized items"
         color := "#3B82F6"
         createdAt := t0 }]
    activityLog := []
    settings :=
      { theme := "light"
        colorScheme := "blue"
        density := "normal"
        adminPasscode := "admin123"
        geminiApiKey := ""
        githubLink := "https://github.com/wh5-construction/inventory-pro"
        companyDomain := "wh5construction.com"
        autoLogout := false
        rememberSession := true
        lowStockAlerts := true
        activityNotifications := false }
    auth := loggedOutAuth }

/-- Folding a finite sequence of dispatched actions (each tagged with the
time at which it is dispatched) through the reducer. -/
def dispatchAll (s : InventoryState)
    (actions : List (Nat × InventoryAction)) : InventoryState :=
  actions.foldl (fun st pa => inventoryReducer pa.1 st pa.2) s

/-- The blob written to the durable slot (`wh5-inventory-data`) by the save
effect in `InventoryProvider`: top-level fields of the in-memory state, with
the auth subtree replaced by the logged-out value unless
`settings.rememberSession` is true. -/
structure PersistedData where
  items : List InventoryItem
  categories : List Category
  activityLog : List ActivityLog
  settings : Settings
  auth : AuthState
  deriving Repr, DecidableEq

/-- Embedding of `dataToSave` from the save effect in `InventoryProvider`
(src/pages/Home.tsx). -/
def dataToSave (state : InventoryState) : PersistedData :=
  { items := state.items
    categories := state.categories
    activityLog := state.activityLog
    settings := state.settings
    auth :=
      if state.settings.rememberSession then state.auth else loggedOutAuth }

/-- The items collection carries pairwise-distinct ids. -/
def itemIdsNodup (s : InventoryState) : Prop :=
  (s.items.map (fun item => item.id)).Nodup

/-- Some category in the state has id `"default"`. -/
def hasDefaultCategory (s : InventoryState) : Prop :=
  ∃ c ∈ s.categories, c.id = "default"

instance (s : InventoryState) : Decidable (itemIdsNodup s) := by
  unfold itemIdsNodup; infer_instance

instance (s : InventoryState) : Decidable (hasDefaultCategory s) := by
  unfold hasDefaultCategory; infer_instance

/-- A concrete user, for evaluating the reducer at concrete inputs. -/
def sampleUser : User :=
  { id := "u1"
    email := "amer@wh5construction.com"
    name := "Amer"
    role := "admin"
    createdAt := 0
    lastLogin := none }

/-- A concrete inventory item, for evaluating the reducer at concrete
inputs. -/
def sampleItem : InventoryItem :=
  { id := "i1"
    name := "Cement"
    description := "Portland cement"
    quantity := 5
    unit := "bag"
    categoryId := "tools"
    waybillNumber := "WB-001"
    tags := []
    createdAt := 0
    updatedAt := 0
    price := none
    minStockLevel := none }

/-- A second concrete inventory item with a different id. -/
def sampleItem2 : InventoryItem :=
  { sampleItem with id := "i2", name := "Gravel", unit := "ton" }

/-- Claim C3: reducing any state with LOGIN(u) at time `now` produces a state
whose auth field has `isAuthenticated = true`, `user = u` and
`sessionExpiry = now + 8 hours`, while items, categories, activityLog and
settings are unchanged. -/
theorem login_sets_session (now : Nat) (s : InventoryState) (u : User) :
    (inventoryReducer now s (.login u)).auth.isAuthenticated = true ∧
    (inventoryReducer now s (.login u)).auth.user = some u ∧
    (inventoryReducer now s (.login u)).auth.sessionExpiry
      = some (now + eightHoursMs) ∧
    (inventoryReducer now s (.login u)).items = s.items ∧
    (inventoryReducer now s (.login u)).categories = s.categories ∧
    (inventoryReducer now s (.login u)).activityLog = s.activityLog ∧
    (inventoryReducer now s (.login u)).settings = s.settings := by
  simp [inventoryReducer]

/-- Claim C4: ADD_ACTIVITY prepends the record to the activity log, so two
successive ADD_ACTIVITY dispatches yield a log beginning with the newest
record first. -/
theorem addActivity_prepends (now n1 n2 : Nat) (s : InventoryState)
    (r r1 r2 : ActivityLog) :
    (inventoryReducer now s (.addActivity r)).activityLog
      = r :: s.activityLog ∧
    (inventoryReducer n2 (inventoryReducer n1 s (.addActivity r1))
        (.addActivity r2)).activityLog
      = r2 :: r1 :: s.activityLog := by
  simp [inventoryReducer]

/-- Claim C6: the reducer is a total function, and any action whose kind is
not among the fourteen recognized kinds falls to the default branch, which
returns the input state unchanged. -/
theorem unknown_action_is_noop (now : Nat) (s : InventoryState)
    (a : InventoryAction) (h : kindOf a ∉ knownKinds) :
    inventoryReducer now s a = s := by
  cases a <;> first
    | rfl
    | (exfalso; exact h (by simp [kindOf, knownKinds]))

/-- Witness for C6: the reducer leaves `initialState 0` unchanged on a
concrete unrecognized action kind. -/
theorem unknown_action_is_noop_witness :
    inventoryReducer 5 (initialState 0) (.unknownAction "RESET_EVERYTHING")
      = initialState 0 :=
  unknown_action_is_noop 5 (initialState 0)
    (.unknownAction "RESET_EVERYTHING") (by decide)

/-- Claim C9: DELETE_CATEGORY(id) removes exactly the categories with the
matching id and leaves the items collection exactly as it was, so every item
referencing the deleted category still references it (no cascade). -/
theorem deleteCategory_no_cascade (now : Nat) (s : InventoryState)
    (id : String) :
    (inventoryReducer now s (.deleteCategory id)).categories
      = s.categories.filter (fun category => category.id ≠ id) ∧
    (inventoryReducer now s (.deleteCategory id)).items = s.items := by
  simp [inventoryReducer]

/-- Claim C5: the blob written to the durable slot persists the auth subtree
as logged-out whenever `settings.rememberSession` is false, and verbatim
whenever it is true. -/
theorem save_respects_rememberSession (s : InventoryState) :
    (s.settings.rememberSession = false →
      (dataToSave s).auth = loggedOutAuth) ∧
    (s.settings.rememberSession = true → (dataToSave s).auth = s.auth) := by
  constructor <;> intro h <;> simp [dataToSave, h]

/-- Witness for C5: evaluated on the initial state (rememberSession true) and
on the initial state with rememberSession switched off. -/
theorem save_respects_rememberSession_witness :
    (dataToSave { initialState 0 with settings :=
        { (initialState 0).settings with rememberSession := false } }).auth
      = loggedOutAuth ∧
    (dataToSave (initialState 0)).auth = (initialState 0).auth :=
  ⟨(save_respects_rememberSession _).1 rfl,
   (save_respects_rememberSession (initialState 0)).2 rfl⟩

/-- Claim C7: DELETE_ITEM(id) keeps exactly the items whose id differs from
`id` (membership characterization and filter equation), is a no-op on the
items collection when no item matches, and is idempotent. -/
theorem deleteItem_removes_matching (now : Nat) (s : InventoryState)
    (id : String) :
    (inventoryReducer now s (.deleteItem id)).items
      = s.items.filter (fun item => item.id ≠ id) ∧
    (∀ item, item ∈ (inventoryReducer now s (.deleteItem id)).items ↔
      item ∈ s.items ∧ item.id ≠ id) ∧
    ((∀ item ∈ s.items, item.id ≠ id) →
      (inventoryReducer now s (.deleteItem id)).items = s.items) ∧
    (inventoryReducer now (inventoryReducer now s (.deleteItem id))
        (.deleteItem id)).items
      = (inventoryReducer now s (.deleteItem id)).items := by
  refine ⟨rfl, ?_, ?_, ?_⟩
  · intro item
    simp [inventoryReducer, List.mem_filter]
  · intro h
    simp only [inventoryReducer, List.filter_eq_self]
    intro item hmem
    simpa using h item hmem
  · simp [inventoryReducer, List.filter_filter]

/-- Witness for C7: on a one-item state, deleting an absent id leaves the
items unchanged. -/
theorem deleteItem_removes_matching_witness :
    (inventoryReducer 0 (inventoryReducer 0 (initialState 0)
        (.addItem sampleItem)) (.deleteItem "i9")).items
      = (inventoryReducer 0 (initialState 0) (.addItem sampleItem)).items :=
  (deleteItem_removes_matching 0
    (inventoryReducer 0 (initialState 0) (.addItem sampleItem)) "i9").2.2.1
    (by decide)

/-- Claim C8: REFRESH_SESSION on an authenticated state only replaces
`auth.sessionExpiry` with `now + 8 hours` (every other field, including
`auth.user` and `auth.isAuthenticated`, is kept), and on an unauthenticated
state it returns the input state itself. -/
theorem refreshSession_behavior (now : Nat) (s : InventoryState) :
    (s.auth.isAuthenticated = true →
      inventoryReducer now s .refreshSession
        = { s with auth :=
            { s.auth with sessionExpiry := some (now + eightHoursMs) } }) ∧
    (s.auth.isAuthenticated = false →
      inventoryReducer now s .refreshSession = s) := by
  constructor <;> intro h <;> simp [inventoryReducer, h]

/-- Witness for C8: evaluated on a freshly logged-in state and on the
logged-out initial state. -/
theorem refreshSession_behavior_witness :
    inventoryReducer 10 (inventoryReducer 0 (initialState 0)
        (.login sampleUser)) .refreshSession
      = { inventoryReducer 0 (initialState 0) (.login sampleUser) with
          auth := { (inventoryReducer 0 (initialState 0)
              (.login sampleUser)).auth with
            sessionExpiry := some (10 + eightHoursMs) } } ∧
    inventoryReducer 10 (initialState 0) .refreshSession = initialState 0 :=
  ⟨(refreshSession_behavior 10 _).1 (by decide),
   (refreshSession_behavior 10 (initialState 0)).2 (by decide)⟩

/-- Replacing-by-id maps every element of a list to itself when no element
carries the target id. -/
theorem map_update_of_absent (l : List InventoryItem) (u : InventoryItem)
    (h : ∀ item ∈ l, item.id ≠ u.id) :
    l.map (fun item => if item.id = u.id then u else item) = l := by
  induction l with
  | nil => rfl
  | cons hd tl ih =>
    simp only [List.map_cons]
    rw [if_neg (h hd (by simp)), ih (fun item hm => h item (by simp [hm]))]

/-- Claim C10: UPDATE_ITEM(u) when no item carries id `u.id` leaves the whole
state unchanged — it neither inserts nor errors. -/
theorem updateItem_missing_id_noop (now : Nat) (s : InventoryState)
    (u : InventoryItem) (h : ∀ item ∈ s.items, item.id ≠ u.id) :
    inventoryReducer now s (.updateItem u) = s := by
  simp only [inventoryReducer]
  rw [map_update_of_absent s.items u h]

/-- Witness for C10: updating an id absent from a one-item state is the
identity on the state. -/
theorem updateItem_missing_id_noop_witness :
    inventoryReducer 0 (inventoryReducer 0 (initialState 0)
        (.addItem sampleItem)) (.updateItem sampleItem2)
      = inventoryReducer 0 (initialState 0) (.addItem sampleItem) :=
  updateItem_missing_id_noop 0
    (inventoryReducer 0 (initialState 0) (.addItem sampleItem)) sampleItem2
    (by decide)

/-- The caller-side precondition under which an action keeps item ids
unique: an ADD_ITEM payload must carry a fresh id and a SET_ITEMS payload
must itself carry pairwise-distinct ids; every other action needs nothing. -/
def preservesItemIds (s : InventoryState) : InventoryAction → Prop
  | .addItem payload => payload.id ∉ s.items.map (fun item => item.id)
  | .setItems payload => (payload.map (fun item => item.id)).Nodup
  | _ => True

instance (s : InventoryState) (a : InventoryAction) :
    Decidable (preservesItemIds s a) := by
  cases a <;> simp only [preservesItemIds] <;> infer_instance

/-- Replacing-by-id keeps the list of ids unchanged: an element either keeps
its id or is replaced by the payload carrying that very id. -/
theorem updateItem_preserves_ids (l : List InventoryItem)
    (u : InventoryItem) :
    ((l.map (fun item => if item.id = u.id then u else item)).map
        (fun item => item.id))
      = l.map (fun item => item.id) := by
  induction l with
  | nil => rfl
  | cons hd tl ih =>
    by_cases h : hd.id = u.id <;> simp [h, ih]

/-- Counterexample to C1 as stated: dispatching ADD_ITEM twice with the same
item from the initial state reaches a state whose items share an id — the
reducer appends unconditionally and never rejects duplicates. -/
theorem itemIds_nodup_counterexample :
    ¬ itemIdsNodup (dispatchAll (initialState 0)
      [(0, .addItem sampleItem), (0, .addItem sampleItem)]) := by
  decide

/-- Claim C1 (amended): the reducer preserves item-id uniqueness on every
step satisfying the caller-side precondition — ADD_ITEM only with an id not
already present, SET_ITEMS only with a pairwise-distinct payload; ADD_ITEM
with an existing id does produce a duplicate. -/
theorem itemIds_nodup_preserved (now : Nat) (s : InventoryState)
    (a : InventoryAction) (hs : itemIdsNodup s)
    (ha : preservesItemIds s a) :
    itemIdsNodup (inventoryReducer now s a) := by
  cases a with
  | addItem payload =>
      simp only [preservesItemIds] at ha
      simp only [inventoryReducer, itemIdsNodup, List.map_append,
        List.map_cons, List.map_nil] at *
      rw [List.nodup_append_comm]
      exact List.nodup_cons.2 ⟨ha, hs⟩
  | updateItem payload =>
      simpa [inventoryReducer, itemIdsNodup,
        updateItem_preserves_ids s.items payload] using hs
  | deleteItem payload =>
      exact hs.sublist ((List.filter_sublist s.items).map
        (fun item => item.id))
  | setItems payload => exact ha
  | addCategory payload => exact hs
  | updateCategory payload => exact hs
  | deleteCategory payload => exact hs
  | setCategories payload => exact hs
  | addActivity payload => exact hs
  | setActivityLog payload => exact hs
  | updateSettings payload => exact hs
  | login payload => exact hs
  | logout => exact hs
  | refreshSession =>
      simp only [inventoryReducer]
      split <;> exact hs
  | unknownAction kind => exact hs

/-- Witness for (amended) C1: adding a fresh-id item to the initial state
keeps item ids pairwise distinct. -/
theorem itemIds_nodup_preserved_witness :
    itemIdsNodup (inventoryReducer 0 (initialState 0)
      (.addItem sampleItem)) :=
  itemIds_nodup_preserved 0 (initialState 0) (.addItem sampleItem)
    (by decide) (by decide)

/-- The caller-side precondition under which an action keeps the "default"
category present: DELETE_CATEGORY must target a different id and a
SET_CATEGORIES payload must itself contain a category with id "default". -/
def preservesDefaultCategory : InventoryAction → Prop
  | .deleteCategory id => id ≠ "default"
  | .setCategories payload => ∃ c ∈ payload, c.id = "default"
  | _ => True

instance (a : InventoryAction) : Decidable (preservesDefaultCategory a) := by
  cases a <;> simp only [preservesDefaultCategory] <;> infer_instance

/-- Counterexample to C2 as stated: the initial state contains the "default"
category, yet reducing it with DELETE_CATEGORY("default") yields a state
with no category of id "default" — the reducer filters unconditionally. -/
theorem default_category_counterexample :
    hasDefaultCategory (initialState 0) ∧
    ¬ hasDefaultCategory (inventoryReducer 0 (initialState 0)
        (.deleteCategory "default")) := by
  decide

/-- Claim C2 (amended): the reducer itself does not protect the "default"
category — DELETE_CATEGORY("default") removes it — but every action other
than DELETE_CATEGORY("default") and a SET_CATEGORIES whose payload lacks a
"default"-id entry (the two cases guarded by callers) preserves its
presence. -/
theorem default_category_preserved (now : Nat) (s : InventoryState)
    (a : InventoryAction) (hs : hasDefaultCategory s)
    (ha : preservesDefaultCategory a) :
    hasDefaultCategory (inventoryReducer now s a) := by
  cases a with
  | addItem payload => exact hs
  | updateItem payload => exact hs
  | deleteItem payload => exact hs
  | setItems payload => exact hs
  | addCategory payload =>
      obtain ⟨c, hc, hcid⟩ := hs
      exact ⟨c, List.mem_append_left _ hc, hcid⟩
  | updateCategory payload =>
      obtain ⟨c, hc, hcid⟩ := hs
      by_cases h : c.id = payload.id
      · refine ⟨payload, ?_, h.symm.trans hcid⟩
        show payload ∈ s.categories.map (fun category =>
          if category.id = payload.id then payload else category)
        exact List.mem_map.2 ⟨c, hc, by simp [h]⟩
      · refine ⟨c, ?_, hcid⟩
        show c ∈ s.categories.map (fun category =>
          if category.id = payload.id then payload else category)
        exact List.mem_map.2 ⟨c, hc, by simp [h]⟩
  | deleteCategory id =>
      obtain ⟨c, hc, hcid⟩ := hs
      refine ⟨c, List.mem_filter.2 ⟨hc, ?_⟩, hcid⟩
      simp only [hcid, decide_eq_true_eq]
      exact fun h => ha h.symm
  | setCategories payload => exact ha
  | addActivity payload => exact hs
  | setActivityLog payload => exact hs
  | updateSettings payload => exact hs
  | login payload => exact hs
  | logout => exact hs
  | refreshSession =>
      simp only [inventoryReducer]
      split <;> exact hs
  | unknownAction kind => exact hs

/-- Witness for (amended) C2: deleting a non-default category from the
initial state keeps the "default" category present. -/
theorem default_category_preserved_witness :
    hasDefaultCategory (inventoryReducer 0 (initialState 0)
      (.deleteCategory "tools")) :=
  default_category_preserved 0 (initialState 0) (.deleteCategory "tools")
    (by decide) (by decide)

end WH5
